import Mathlib

/-!
Verification of the lecture-canvas plugin (`src/main.ts`, with the
near-duplicate earlier variant `src/unnamed/part_000`).

The plugin's logic is embedded shallowly:
* `slugify` is translated step by step from the chain of `replace` calls.
* `writeLectureCanvas` becomes a pure function from its inputs (settings,
  title, course, date) plus the two effect sources it reads — the system
  clock `Date.now()` (a natural number of milliseconds) and the stream of
  `uuid()` draws (a function from draw index to string) — to the record of
  paths and file contents it writes.
* File contents that the code assembles as JSON object literals are kept
  structurally (records mirroring the object literals field by field);
  plain-text contents are kept as the literal strings.
* The vault file-store operations used by `ensureFolder`,
  `createExcalidrawJSON` / `createExcalidrawMarkdown` (exists / mkdir /
  create / modify / getAbstractFileByPath) act on an explicit vault state,
  and fallible operations return `Except`.
-/

namespace LectureCanvas

/-- Character class of the JS regex `\s` (whitespace), at the code points
that can appear here: space (32), tab (9), newline (10), carriage return
(13), vertical tab (11), form feed (12).  JS also counts some Unicode
space separators; those never survive the surrounding ASCII filters. -/
def jsWhite (c : Char) : Bool :=
  c.toNat = 32 || c.toNat = 9 || c.toNat = 10 || c.toNat = 13 || c.toNat = 11 || c.toNat = 12

/-- Character class `[a-z0-9\- ]` of the first `replace` in `slugify`:
code points 97–122 (`a`–`z`), 48–57 (`0`–`9`), hyphen, space (32). -/
def slugKeep (c : Char) : Bool :=
  (97 ≤ c.toNat && c.toNat ≤ 122) || (48 ≤ c.toNat && c.toNat ≤ 57) || c = '-' || c.toNat = 32

/-- Character class (just the hyphen) of the replace step that collapses
hyphen runs. -/
def hyph (c : Char) : Bool := c = '-'

/-- Semantics of JS `replace(/X+/g, r)` for a one-character class `X`:
every maximal run of characters satisfying `p` is replaced by the single
character `r`. -/
def collapseRuns (p : Char → Bool) (r : Char) : List Char → List Char
  | [] => []
  | c :: cs =>
    if p c then
      match cs with
      | [] => [r]
      | c2 :: _ => if p c2 then collapseRuns p r cs else r :: collapseRuns p r cs
    else c :: collapseRuns p r cs

/-- `slugify` from `src/main.ts` lines 39–46 (identical in
`src/unnamed/part_000` lines 32–39), on the character list of the string:
lowercase, strip characters outside `[a-z0-9\- ]`, collapse whitespace
runs to `-`, collapse `-` runs, truncate to 64.  JS `toLowerCase` is
modelled by the ASCII `Char.toLower`; non-ASCII characters are removed by
the following filter either way. -/
def slugList (l : List Char) : List Char :=
  (collapseRuns hyph '-' (collapseRuns jsWhite '-' ((l.map Char.toLower).filter slugKeep))).take 64

/-- `slugify` on strings. -/
def slugify (s : String) : String := ⟨slugList s.data⟩

/-- Output character class claimed for slugs: `a`–`z`, `0`–`9`, hyphen. -/
def slugChar (c : Char) : Bool :=
  (97 ≤ c.toNat && c.toNat ≤ 122) || (48 ≤ c.toNat && c.toNat ≤ 57) || c = '-'

/-- No two adjacent characters of the list both satisfy `p`. -/
def noAdjPair (p : Char → Bool) : List Char → Bool
  | c1 :: c2 :: rest => (!(p c1 && p c2)) && noAdjPair p (c2 :: rest)
  | _ => true

/-- Rectangle `{x, y, width, height}` as used by the node layout settings
(numbers are modelled as integers; only copying and equality of these
fields occur in the code under scrutiny). -/
structure Rect where
  x : Int
  y : Int
  width : Int
  height : Int
  deriving DecidableEq

/-- The `node` sub-record of the plugin settings. -/
structure NodeLayout where
  excalidraw : Rect
  slides : Rect
  meta : Rect
  deriving DecidableEq

/-- `LectureCanvasSettings` from `src/main.ts` lines 14–23. -/
structure LectureCanvasSettings where
  rootFolder : String
  defaultCourse : String
  excalidrawCheck : Bool
  node : NodeLayout
  deriving DecidableEq

/-- `DEFAULT_SETTINGS` from `src/main.ts` lines 25–35. -/
def DEFAULT_SETTINGS : LectureCanvasSettings :=
  { rootFolder := "Lectures"
    defaultCourse := ""
    excalidrawCheck := true
    node :=
      { meta := { x := 0, y := 0, width := 1450, height := 300 }
        slides := { x := 0, y := 350, width := 600, height := 600 }
        excalidraw := { x := 650, y := 350, width := 800, height := 600 } } }

/-- JS `now & 0x7fffffff` on a (non-negative, < 2^53) number: ToInt32
followed by masking off the sign bit keeps the low 31 bits, i.e. the
value modulo 2^31. -/
def mask31 (n : Nat) : Nat := n % 2 ^ 31

/-- The `roundness: { type: 3, value: 8 }` sub-object of a drawing
element. -/
structure Roundness where
  type : Nat
  value : Nat
  deriving DecidableEq

/-- One element of the Excalidraw scene graph, mirroring the object
literals of `createExcalidrawJSON` / `createExcalidrawMarkdown` field by
field.  Fields that appear only on text elements are `Option`s that are
`none` on the rectangle element.  `boundElements` and `containerId` are
always `null` in the generated documents.  `lineHeight` (the constant
1.25) is kept as a rational. -/
structure ExElement where
  id : String
  type : String
  x : Int
  y : Int
  width : Int
  height : Int
  angle : Int
  strokeColor : String
  backgroundColor : String
  fillStyle : String
  strokeWidth : Int
  strokeStyle : String
  roughness : Int
  opacity : Int
  groupIds : List String
  roundness : Option Roundness
  seed : Nat
  version : Nat
  versionNonce : Nat
  isDeleted : Bool
  boundElements : Option Unit
  updated : Nat
  text : Option String
  fontSize : Option Nat
  fontFamily : Option Nat
  textAlign : Option String
  verticalAlign : Option String
  containerId : Option String
  originalText : Option String
  lineHeight : Option Rat
  deriving DecidableEq

/-- The `zoom: { value: 1 }` sub-object of the drawing app state. -/
structure ZoomState where
  value : Nat
  deriving DecidableEq

/-- The `appState` object of the generated drawing documents. -/
structure AppState where
  gridSize : Nat
  viewBackgroundColor : String
  scrollX : Int
  scrollY : Int
  zoom : ZoomState
  deriving DecidableEq

/-- The envelope of a generated drawing document: `{type, version,
source, elements, appState, files}`.  `files` is always the empty object
in the generated documents and is kept as an (empty) association list. -/
structure ExcalidrawDoc where
  type : String
  version : Nat
  source : String
  elements : List ExElement
  appState : AppState
  files : List (String × String)
  deriving DecidableEq

/-- The `appState` constant shared by both drawing-document builders. -/
def defaultAppState : AppState :=
  { gridSize := 20, viewBackgroundColor := "#ffffff", scrollX := 0, scrollY := 0,
    zoom := { value := 1 } }

/-- The `payload` object literal of `createExcalidrawJSON`
(`src/main.ts` lines 207–250).  `uuid()` draws are taken from the stream
`ids` in call order; `now` is the value of `Date.now()`. -/
def createExcalidrawJSONPayload (ids : Nat → String) (now : Nat)
    (title subtitle : String) : ExcalidrawDoc :=
  { type := "excalidraw"
    version := 2
    source := "obsidian-excalidraw-plugin"
    elements :=
      [ { id := ids 0
          type := "rectangle"
          x := 80, y := 60, width := 520, height := 110, angle := 0
          strokeColor := "#1e1e1e", backgroundColor := "#ffd6a5"
          fillStyle := "solid", strokeWidth := 1, strokeStyle := "solid"
          roughness := 1, opacity := 100, groupIds := []
          roundness := some { type := 3, value := 8 }
          seed := mask31 now, version := 1, versionNonce := mask31 (now + 1)
          isDeleted := false, boundElements := none, updated := now
          text := none, fontSize := none, fontFamily := none
          textAlign := none, verticalAlign := none, containerId := none
          originalText := none, lineHeight := none },
        { id := ids 1
          type := "text"
          x := 100, y := 80, width := 480, height := 38, angle := 0
          strokeColor := "#000", backgroundColor := "transparent"
          fillStyle := "solid", strokeWidth := 1, strokeStyle := "solid"
          roughness := 0, opacity := 100, groupIds := [], roundness := none
          seed := mask31 (now + 2), version := 1, versionNonce := mask31 (now + 3)
          isDeleted := false, boundElements := none, updated := now
          text := some ("📓 " ++ title), fontSize := some 32, fontFamily := some 1
          textAlign := some "left", verticalAlign := some "top", containerId := none
          originalText := some ("📓 " ++ title), lineHeight := some (5 / 4) },
        { id := ids 2
          type := "text"
          x := 100, y := 120, width := 360, height := 28, angle := 0
          strokeColor := "#444", backgroundColor := "transparent"
          fillStyle := "solid", strokeWidth := 1, strokeStyle := "solid"
          roughness := 0, opacity := 100, groupIds := [], roundness := none
          seed := mask31 (now + 4), version := 1, versionNonce := mask31 (now + 5)
          isDeleted := false, boundElements := none, updated := now
          text := some subtitle, fontSize := some 22, fontFamily := some 1
          textAlign := some "left", verticalAlign := some "top", containerId := none
          originalText := some subtitle, lineHeight := some (5 / 4) } ]
    appState := defaultAppState
    files := [] }

/-- The `payload` object literal of `createExcalidrawMarkdown`
(`src/main.ts` lines 79–181); it differs from the JSON variant only in
the spelled-out text stroke colors `#000000` / `#444444`. -/
def createExcalidrawMarkdownPayload (ids : Nat → String) (now : Nat)
    (title subtitle : String) : ExcalidrawDoc :=
  { type := "excalidraw"
    version := 2
    source := "obsidian-excalidraw-plugin"
    elements :=
      [ { id := ids 0
          type := "rectangle"
          x := 80, y := 60, width := 520, height := 110, angle := 0
          strokeColor := "#1e1e1e", backgroundColor := "#ffd6a5"
          fillStyle := "solid", strokeWidth := 1, strokeStyle := "solid"
          roughness := 1, opacity := 100, groupIds := []
          roundness := some { type := 3, value := 8 }
          seed := mask31 now, version := 1, versionNonce := mask31 (now + 1)
          isDeleted := false, boundElements := none, updated := now
          text := none, fontSize := none, fontFamily := none
          textAlign := none, verticalAlign := none, containerId := none
          originalText := none, lineHeight := none },
        { id := ids 1
          type := "text"
          x := 100, y := 80, width := 480, height := 38, angle := 0
          strokeColor := "#000000", backgroundColor := "transparent"
          fillStyle := "solid", strokeWidth := 1, strokeStyle := "solid"
          roughness := 0, opacity := 100, groupIds := [], roundness := none
          seed := mask31 (now + 2), version := 1, versionNonce := mask31 (now + 3)
          isDeleted := false, boundElements := none, updated := now
          text := some ("📓 " ++ title), fontSize := some 32, fontFamily := some 1
          textAlign := some "left", verticalAlign := some "top", containerId := none
          originalText := some ("📓 " ++ title), lineHeight := some (5 / 4) },
        { id := ids 2
          type := "text"
          x := 100, y := 120, width := 360, height := 28, angle := 0
          strokeColor := "#444444", backgroundColor := "transparent"
          fillStyle := "solid", strokeWidth := 1, strokeStyle := "solid"
          roughness := 0, opacity := 100, groupIds := [], roundness := none
          seed := mask31 (now + 4), version := 1, versionNonce := mask31 (now + 5)
          isDeleted := false, boundElements := none, updated := now
          text := some subtitle, fontSize := some 22, fontFamily := some 1
          textAlign := some "left", verticalAlign := some "top", containerId := none
          originalText := some subtitle, lineHeight := some (5 / 4) } ]
    appState := defaultAppState
    files := [] }

/-- One node of the generated canvas document.  `text` is present on
"text" nodes, `file` on "file" nodes; `color` appears only on the meta
node of the `part_000` variant. -/
structure CanvasNode where
  id : String
  type : String
  text : Option String
  file : Option String
  color : Option String
  x : Int
  y : Int
  width : Int
  height : Int
  deriving DecidableEq

/-- An edge of a canvas document.  The generated documents never build
edges; the shape follows the canvas file format. -/
structure CanvasEdge where
  id : String
  fromNode : String
  toNode : String
  deriving DecidableEq

/-- The envelope of a generated canvas document. -/
structure CanvasDoc where
  type : String
  version : String
  nodes : List CanvasNode
  edges : List CanvasEdge
  deriving DecidableEq

/-- The `{x, y, width, height}` rectangle of a canvas node. -/
def CanvasNode.rect (n : CanvasNode) : Rect :=
  { x := n.x, y := n.y, width := n.width, height := n.height }

/-- Everything `writeLectureCanvas` writes: the folder it creates and
the four files with their contents (drawing and canvas documents kept
structurally, plain-text contents as strings). -/
structure LecturePlan where
  folder : String
  excalidrawPath : String
  slidesPlaceholderPath : String
  metaPath : String
  canvasPath : String
  excalidrawDoc : ExcalidrawDoc
  slidesContent : String
  metaContent : String
  canvasDoc : CanvasDoc

/-- `writeLectureCanvas` from `src/main.ts` lines 354–449 as a pure
function of its inputs, the clock value `now`, and the `uuid()` draw
stream `ids` (draws 0–2 happen inside `createExcalidrawJSON`, draws 3–5
in the `CANVAS` literal, in call order). -/
def writeLectureCanvas (settings : LectureCanvasSettings)
    (title course dateISO : String) (now : Nat) (ids : Nat → String) : LecturePlan :=
  let folder := settings.rootFolder ++ "/" ++ course ++ "/" ++ dateISO ++ " " ++ slugify title
  let excalidrawPath := folder ++ "/notes.excalidraw"
  let excalidrawDoc :=
    createExcalidrawJSONPayload ids now (course ++ " — " ++ title) ("Date: " ++ dateISO)
  let slidesPlaceholderPath := folder ++ "/slides.md"
  let slidesContent := String.intercalate "\n"
    [ "# Slides placeholder"
    , ""
    , "Right-click this node on the Canvas → **Swap file…** → choose your `slides.pdf`."
    , ""
    , "> Tip: keep the filename **slides.pdf** in this folder for consistency." ]
  let metaPath := folder ++ "/_meta.md"
  let metaContent := String.intercalate "\n"
    [ "---"
    , "title: " ++ title
    , "course: " ++ course
    , "date: " ++ dateISO
    , "tags: [course/" ++ course ++ "]"
    , "---"
    , ""
    , "# Lecture notes"
    , ""
    , "- Swap **slides.md** to **slides.pdf** when available."
    , "- Open **notes.excalidraw.md** for handwriting."
    , "" ]
  let canvasDoc : CanvasDoc :=
    { type := "canvas"
      version := "1.3.4"
      nodes :=
        [ { id := ids 3
            type := "text"
            text := some ("# " ++ title ++ "\n**Course:** " ++ course ++ "\n**Date:** " ++
              dateISO ++
              "\n\n- Click the Excalidraw node to start handwriting\n- Swap slides.md → slides.pdf when you have it\n- Metadata: [[" ++
              metaPath ++ "]]")
            file := none, color := none
            x := settings.node.meta.x, y := settings.node.meta.y
            width := settings.node.meta.width, height := settings.node.meta.height },
          { id := ids 4
            type := "file"
            text := none, file := some excalidrawPath, color := none
            x := settings.node.excalidraw.x, y := settings.node.excalidraw.y
            width := settings.node.excalidraw.width, height := settings.node.excalidraw.height },
          { id := ids 5
            type := "file"
            text := none, file := some slidesPlaceholderPath, color := none
            x := settings.node.slides.x, y := settings.node.slides.y
            width := settings.node.slides.width, height := settings.node.slides.height } ]
      edges := [] }
  let canvasName := dateISO ++ " " ++ slugify title ++ ".canvas"
  let canvasPath := folder ++ "/" ++ canvasName
  { folder := folder
    excalidrawPath := excalidrawPath
    slidesPlaceholderPath := slidesPlaceholderPath
    metaPath := metaPath
    canvasPath := canvasPath
    excalidrawDoc := excalidrawDoc
    slidesContent := slidesContent
    metaContent := metaContent
    canvasDoc := canvasDoc }

/-- The `CANVAS` object literal of the `part_000` variant
(`src/unnamed/part_000` lines 177–202): same envelope, nodes ordered
excalidraw / slides / meta, the meta node carrying `color: "1"`. -/
def canvasDocV0 (settings : LectureCanvasSettings)
    (title course dateISO excalidrawPath slidesPath metaPath : String)
    (ids : Nat → String) : CanvasDoc :=
  { type := "canvas"
    version := "1.3.4"
    nodes :=
      [ { id := ids 0
          type := "file"
          text := none, file := some excalidrawPath, color := none
          x := settings.node.excalidraw.x, y := settings.node.excalidraw.y
          width := settings.node.excalidraw.width, height := settings.node.excalidraw.height },
        { id := ids 1
          type := "file"
          text := none, file := some slidesPath, color := none
          x := settings.node.slides.x, y := settings.node.slides.y
          width := settings.node.slides.width, height := settings.node.slides.height },
        { id := ids 2
          type := "text"
          text := some ("# " ++ title ++ "\n**Course:** " ++ course ++ "\n**Date:** " ++
            dateISO ++
            "\n\n- Click the Excalidraw node to start handwriting\n- Replace slides.pdf with your deck\n- Metadata: [[" ++
            metaPath ++ "]]")
          file := none, color := some "1"
          x := settings.node.meta.x, y := settings.node.meta.y
          width := settings.node.meta.width, height := settings.node.meta.height } ]
    edges := [] }

/-- Masking of the fields of a drawing element that are generated from
`uuid()` and `Date.now()`: `id`, `seed`, `versionNonce`, `updated`. -/
def maskExElement (e : ExElement) : ExElement :=
  { e with id := "", seed := 0, versionNonce := 0, updated := 0 }

/-- A drawing document up to its generated identifiers and
timestamp-derived fields. -/
def maskExcalidrawDoc (d : ExcalidrawDoc) : ExcalidrawDoc :=
  { d with elements := d.elements.map maskExElement }

/-- Masking of the generated `id` of a canvas node. -/
def maskCanvasNode (n : CanvasNode) : CanvasNode :=
  { n with id := "" }

/-- A canvas document up to its generated node identifiers. -/
def maskCanvasDoc (d : CanvasDoc) : CanvasDoc :=
  { d with nodes := d.nodes.map maskCanvasNode }

/-- Outcome of clicking the Create button of the lecture prompt. -/
inductive SubmitResult
  | rejected (notice : String)
  | submitted (course title dateISO : String)
  deriving DecidableEq

/-- The Create click handler (`src/main.ts` lines 297–302, identical in
`part_000` lines 115–120): an empty title, then an empty course, shows a
notice and returns without submitting; otherwise the modal closes and
`onSubmit` receives the three values.  (JS `!s` on a string is true
exactly on the empty string.) -/
def submitClick (course title dateISO : String) : SubmitResult :=
  if title = "" then .rejected "Please enter a lecture title"
  else if course = "" then .rejected "Please enter a course"
  else .submitted course title dateISO

/-- Whether the handler invoked `onSubmit` (and hence the creation
flow). -/
def SubmitResult.isSubmitted : SubmitResult → Bool
  | .submitted .. => true
  | .rejected _ => false

/-- JS `String.prototype.trim`, over the modelled whitespace set. -/
def jsTrim (l : List Char) : List Char :=
  ((l.dropWhile jsWhite).reverse.dropWhile jsWhite).reverse

/-- The course text field's onChange handler (`src/main.ts` line 280):
stores the trimmed value. -/
def courseOnChange (v : String) : String := ⟨jsTrim v.data⟩

/-- The title text field's onChange handler (`src/main.ts` line 286):
stores the trimmed value. -/
def titleOnChange (v : String) : String := ⟨jsTrim v.data⟩

/-- The date text field's onChange handler (`src/main.ts` line 292):
stores the value verbatim — no trimming, no validation. -/
def dateOnChange (v : String) : String := v

/-- One vault effect of the creation flow (identified by its target
path; `mkdirIfMissing` is the `ensureFolder` call, `write` covers both
`vault.create` of the drawing file and `adapter.write`). -/
inductive VaultOp
  | mkdirIfMissing (path : String)
  | write (path : String)
  deriving DecidableEq

/-- The vault effects of `writeLectureCanvas`, in program order: create
the folder, write the drawing file, the slides placeholder, the meta
note, the canvas file.  (`clickExcalidrawButtons` performs no vault
writes of its own.) -/
def lectureOps (settings : LectureCanvasSettings) (title course dateISO : String)
    (now : Nat) (ids : Nat → String) : List VaultOp :=
  let plan := writeLectureCanvas settings title course dateISO now ids
  [ VaultOp.mkdirIfMissing plan.folder
  , VaultOp.write plan.excalidrawPath
  , VaultOp.write plan.slidesPlaceholderPath
  , VaultOp.write plan.metaPath
  , VaultOp.write plan.canvasPath ]

/-- Sequential execution of the awaited write sequence under a failure
model: `failAt = some k` means the k-th operation (0-based) raises a
file-store error; the operations before it have already executed and
stay executed.  Returns the performed operations and whether the
sequence completed. -/
def runWrites (ops : List VaultOp) (failAt : Option Nat) : List VaultOp × Bool :=
  match failAt with
  | none => (ops, true)
  | some k => if k < ops.length then (ops.take k, false) else (ops, true)

/-- Outcome of one launch of the creation flow. -/
inductive FlowResult
  | ok (performed : List VaultOp)
  | failed (performed : List VaultOp) (notice : String)
  deriving DecidableEq

/-- The try/catch of `LectureCanvasPlugin.launchPrompt` (`src/main.ts`
lines 478–493): an error thrown anywhere inside `writeLectureCanvas`
propagates to this catch, is logged, and surfaces as the one generic
notice; the catch block performs no further vault operations (no
cleanup). -/
def launchPromptRun (ops : List VaultOp) (failAt : Option Nat) : FlowResult :=
  let r := runWrites ops failAt
  if r.2 then FlowResult.ok r.1 else FlowResult.failed r.1 "Failed to create lecture canvas."

/-- The vault operations of one prompt attempt: none when the submit
handler rejects, the full write sequence when it submits (note
`onSubmit` passes course and title through to `writeLectureCanvas`). -/
def promptFlowOps (settings : LectureCanvasSettings) (course title dateISO : String)
    (now : Nat) (ids : Nat → String) : List VaultOp :=
  match submitClick course title dateISO with
  | SubmitResult.rejected _ => []
  | SubmitResult.submitted c t d => lectureOps settings t c d now ids

/-- The vault as seen through the adapter: the set of folders and the
files with their contents. -/
structure Vault where
  folders : List String
  files : List (String × String)
  deriving DecidableEq

/-- `app.vault.adapter.exists`: anything (folder or file) at the path. -/
def vaultExists (v : Vault) (p : String) : Bool :=
  v.folders.contains p || (v.files.map Prod.fst).contains p

/-- `ensureFolder` (`src/main.ts` lines 58–63): mkdir only when nothing
exists at the path yet. -/
def ensureFolder (v : Vault) (p : String) : Vault :=
  if vaultExists v p then v else { v with folders := p :: v.folders }

/-- The value returned by the create-or-modify file helpers. -/
inductive FileHandle
  | existing (path : String)
  | created (path : String)
  deriving DecidableEq

/-- `app.vault.getAbstractFileByPath(path) instanceof TFile`: a file
(not a folder) exists at the path. -/
def isFileAt (v : Vault) (p : String) : Bool :=
  (v.files.map Prod.fst).contains p

/-- `app.vault.create`: adds a new file, failing when something already
exists at the path. -/
def vaultCreate (v : Vault) (p content : String) : Except String (Vault × FileHandle) :=
  if vaultExists v p then Except.error "File already exists."
  else Except.ok ({ v with files := v.files ++ [(p, content)] }, FileHandle.created p)

/-- `app.vault.modify` of the file at `p`: replaces that file's content
in place. -/
def overwriteFile (files : List (String × String)) (p content : String) :
    List (String × String) :=
  files.map fun e => if e.1 = p then (p, content) else e

/-- The file logic shared by `createExcalidrawJSON` (`src/main.ts` lines
252–255) and `createExcalidrawMarkdown` (lines 194–199), and in
simplified form by `createEmptyFile`: if a file already exists at the
path it is modified in place and the existing handle is returned;
otherwise `vault.create` makes a new file. -/
def createOrModifyFile (v : Vault) (p content : String) :
    Except String (Vault × FileHandle) :=
  if isFileAt v p then
    Except.ok ({ v with files := overwriteFile v.files p content }, FileHandle.existing p)
  else vaultCreate v p content

/-- Content lookup by path, for stating what `overwriteFile` did. -/
def lookupFile : List (String × String) → String → Option String
  | [], _ => none
  | e :: es, p => if e.1 = p then some e.2 else lookupFile es p

/-- A concrete uuid draw stream used by the witnesses. -/
def sampleIds : Nat → String := fun n => toString n

theorem bandSplit {a b : Bool} (h : (a && b) = true) : a = true ∧ b = true := by
  simp only [Bool.and_eq_true] at h
  exact h

theorem collapseRuns_single_pos (p : Char → Bool) (r c : Char) (hc : p c = true) :
    collapseRuns p r [c] = [r] := by
  simp [collapseRuns, hc]

theorem collapseRuns_cons2_pos_pos (p : Char → Bool) (r c c2 : Char) (cs : List Char)
    (hc : p c = true) (hc2 : p c2 = true) :
    collapseRuns p r (c :: c2 :: cs) = collapseRuns p r (c2 :: cs) := by
  conv_lhs => rw [collapseRuns]
  simp [hc, hc2]

theorem collapseRuns_cons2_pos_neg (p : Char → Bool) (r c c2 : Char) (cs : List Char)
    (hc : p c = true) (hc2 : p c2 = false) :
    collapseRuns p r (c :: c2 :: cs) = r :: collapseRuns p r (c2 :: cs) := by
  conv_lhs => rw [collapseRuns]
  simp [hc, hc2]

theorem collapseRuns_cons_of_neg (p : Char → Bool) (r : Char) (c : Char) (cs : List Char)
    (hc : p c = false) : collapseRuns p r (c :: cs) = c :: collapseRuns p r cs := by
  cases cs with
  | nil => simp [collapseRuns, hc]
  | cons c2 cs2 =>
    conv_lhs => rw [collapseRuns]
    simp [hc]

theorem mem_collapseRuns (p : Char → Bool) (r : Char) :
    ∀ (l : List Char) (x : Char), x ∈ collapseRuns p r l → x = r ∨ (x ∈ l ∧ p x = false) := by
  intro l
  induction l with
  | nil => intro x hx; simp [collapseRuns] at hx
  | cons c cs ih =>
    intro x hx
    by_cases hc : p c = true
    · cases cs with
      | nil =>
        rw [collapseRuns_single_pos p r c hc] at hx
        exact Or.inl (List.mem_singleton.mp hx)
      | cons c2 cs2 =>
        by_cases hc2 : p c2 = true
        · rw [collapseRuns_cons2_pos_pos p r c c2 cs2 hc hc2] at hx
          rcases ih x hx with h | ⟨hm, hp⟩
          · exact Or.inl h
          · exact Or.inr ⟨List.mem_cons_of_mem _ hm, hp⟩
        · rw [collapseRuns_cons2_pos_neg p r c c2 cs2 hc (eq_false_of_ne_true hc2)] at hx
          rcases List.mem_cons.mp hx with h | h
          · exact Or.inl h
          · rcases ih x h with h2 | ⟨hm, hp⟩
            · exact Or.inl h2
            · exact Or.inr ⟨List.mem_cons_of_mem _ hm, hp⟩
    · rw [collapseRuns_cons_of_neg p r c cs (eq_false_of_ne_true hc)] at hx
      rcases List.mem_cons.mp hx with h | h
      · refine Or.inr ⟨h ▸ List.mem_cons_self c cs, ?_⟩
        rw [h]
        exact eq_false_of_ne_true hc
      · rcases ih x h with h2 | ⟨hm, hp⟩
        · exact Or.inl h2
        · exact Or.inr ⟨List.mem_cons_of_mem _ hm, hp⟩

theorem noAdjPair_collapseRuns (p : Char → Bool) (r : Char) :
    ∀ l : List Char, noAdjPair p (collapseRuns p r l) = true := by
  intro l
  induction l with
  | nil => simp [collapseRuns, noAdjPair]
  | cons c cs ih =>
    by_cases hc : p c = true
    · cases cs with
      | nil => rw [collapseRuns_single_pos p r c hc]; simp [noAdjPair]
      | cons c2 cs2 =>
        by_cases hc2 : p c2 = true
        · rw [collapseRuns_cons2_pos_pos p r c c2 cs2 hc hc2]
          exact ih
        · have hc2' : p c2 = false := eq_false_of_ne_true hc2
          rw [collapseRuns_cons2_pos_neg p r c c2 cs2 hc hc2']
          rw [collapseRuns_cons_of_neg p r c2 cs2 hc2'] at ih ⊢
          simp [noAdjPair, hc2', ih]
    · have hc' : p c = false := eq_false_of_ne_true hc
      rw [collapseRuns_cons_of_neg p r c cs hc']
      cases h : collapseRuns p r cs with
      | nil => simp [noAdjPair]
      | cons c3 cs3 =>
        rw [h] at ih
        simp [noAdjPair, hc', ih]

theorem noAdjPair_tail (p : Char → Bool) (c : Char) (cs : List Char)
    (h : noAdjPair p (c :: cs) = true) : noAdjPair p cs = true := by
  cases cs with
  | nil => simp [noAdjPair]
  | cons c2 cs2 => exact (bandSplit h).2

theorem noAdjPair_take (p : Char → Bool) :
    ∀ (l : List Char) (n : Nat), noAdjPair p l = true → noAdjPair p (l.take n) = true := by
  intro l
  induction l with
  | nil => intro n _; simp [noAdjPair]
  | cons c cs ih =>
    intro n h
    cases n with
    | zero => simp [noAdjPair]
    | succ m =>
      cases cs with
      | nil => simp [noAdjPair]
      | cons c2 cs2 =>
        cases m with
        | zero => simp [noAdjPair]
        | succ m2 =>
          have h1 := (bandSplit h).1
          have h2 := (bandSplit h).2
          have ih2 := ih (m2 + 1) h2
          simp only [List.take] at ih2 ⊢
          simp [noAdjPair, h1, ih2]

theorem collapseRuns_of_not_mem (p : Char → Bool) (r : Char) :
    ∀ l : List Char, (∀ c ∈ l, p c = false) → collapseRuns p r l = l := by
  intro l
  induction l with
  | nil => simp [collapseRuns]
  | cons c cs ih =>
    intro h
    rw [collapseRuns_cons_of_neg p r c cs (h c (List.mem_cons_self c cs))]
    rw [ih (fun x hx => h x (List.mem_cons_of_mem c hx))]

theorem collapseRuns_of_noAdjPair (p : Char → Bool) (r : Char)
    (hr : ∀ c, p c = true → c = r) :
    ∀ l : List Char, noAdjPair p l = true → collapseRuns p r l = l := by
  intro l
  induction l with
  | nil => intro _; simp [collapseRuns]
  | cons c cs ih =>
    intro h
    by_cases hc : p c = true
    · cases cs with
      | nil => simp [collapseRuns, hc, (hr c hc).symm]
      | cons c2 cs2 =>
        have h1 := (bandSplit h).1
        have h2 := (bandSplit h).2
        have hc2 : p c2 = false := by
          cases hq : p c2 with
          | false => rfl
          | true => rw [hc, hq] at h1; simp at h1
        rw [collapseRuns_cons2_pos_neg p r c c2 cs2 hc hc2, ih h2, hr c hc]
    · have hc' : p c = false := eq_false_of_ne_true hc
      rw [collapseRuns_cons_of_neg p r c cs hc', ih (noAdjPair_tail p c cs h)]

theorem slugChar_iff {x : Char} : slugChar x = true ↔
    (97 ≤ x.toNat ∧ x.toNat ≤ 122) ∨ (48 ≤ x.toNat ∧ x.toNat ≤ 57) ∨ x = '-' := by
  simp [slugChar, or_assoc]

theorem slugKeep_iff {x : Char} : slugKeep x = true ↔
    (97 ≤ x.toNat ∧ x.toNat ≤ 122) ∨ (48 ≤ x.toNat ∧ x.toNat ≤ 57) ∨ x = '-' ∨
      x.toNat = 32 := by
  simp [slugKeep, or_assoc]

theorem jsWhite_iff {x : Char} : jsWhite x = true ↔
    x.toNat = 32 ∨ x.toNat = 9 ∨ x.toNat = 10 ∨ x.toNat = 13 ∨ x.toNat = 11 ∨
      x.toNat = 12 := by
  simp [jsWhite, or_assoc]

theorem hyphNat {x : Char} (h : x = '-') : x.toNat = 45 := by
  subst h; rfl

theorem slugChar_of_keep_not_white {x : Char} (hk : slugKeep x = true)
    (hw : jsWhite x = false) : slugChar x = true := by
  rw [← Bool.not_eq_true, jsWhite_iff] at hw
  rw [slugChar_iff]
  rcases slugKeep_iff.mp hk with h | h | h | h
  · exact Or.inl h
  · exact Or.inr (Or.inl h)
  · exact Or.inr (Or.inr h)
  · exact absurd (Or.inl h) hw

theorem slugChar_not_white {x : Char} (h : slugChar x = true) : jsWhite x = false := by
  rw [← Bool.not_eq_true, jsWhite_iff]
  rcases slugChar_iff.mp h with h | h | h
  · omega
  · omega
  · have := hyphNat h; omega

theorem slugKeep_of_slugChar {x : Char} (h : slugChar x = true) : slugKeep x = true := by
  rw [slugKeep_iff]
  rcases slugChar_iff.mp h with h | h | h
  · exact Or.inl h
  · exact Or.inr (Or.inl h)
  · exact Or.inr (Or.inr (Or.inl h))

theorem toLower_of_slugChar {x : Char} (h : slugChar x = true) : Char.toLower x = x := by
  have h' : ¬(x.toNat ≥ 65 ∧ x.toNat ≤ 90) := by
    rcases slugChar_iff.mp h with h | h | h
    · omega
    · omega
    · have := hyphNat h; omega
  simp [Char.toLower, h']

theorem slugList_chars (l : List Char) : ∀ x ∈ slugList l, slugChar x = true := by
  intro x hx
  have hx2 : x ∈ collapseRuns hyph '-'
      (collapseRuns jsWhite '-' ((l.map Char.toLower).filter slugKeep)) :=
    List.take_subset 64 _ hx
  rcases mem_collapseRuns hyph '-' _ x hx2 with h | ⟨hm, _⟩
  · subst h; decide
  · rcases mem_collapseRuns jsWhite '-' _ x hm with h | ⟨hm2, hw⟩
    · subst h; decide
    · exact slugChar_of_keep_not_white (List.of_mem_filter hm2) hw

theorem slugList_length_le (l : List Char) : (slugList l).length ≤ 64 := by
  simp [slugList, List.length_take]

theorem slugList_noAdj (l : List Char) : noAdjPair hyph (slugList l) = true :=
  noAdjPair_take hyph _ 64 (noAdjPair_collapseRuns hyph '-' _)

theorem map_toLower_of_slugChar :
    ∀ l : List Char, (∀ c ∈ l, slugChar c = true) → l.map Char.toLower = l := by
  intro l
  induction l with
  | nil => intro _; rfl
  | cons c cs ih =>
    intro h
    simp only [List.map_cons]
    rw [toLower_of_slugChar (h c (List.mem_cons_self c cs)),
      ih (fun x hx => h x (List.mem_cons_of_mem c hx))]

theorem hyph_imp_eq {c : Char} (h : hyph c = true) : c = '-' := by
  simpa [hyph] using h

theorem slugList_fixed {m : List Char} (hc : ∀ x ∈ m, slugChar x = true)
    (hadj : noAdjPair hyph m = true) (hlen : m.length ≤ 64) : slugList m = m := by
  unfold slugList
  rw [map_toLower_of_slugChar m hc]
  rw [List.filter_eq_self.mpr (fun a ha => slugKeep_of_slugChar (hc a ha))]
  rw [collapseRuns_of_not_mem jsWhite '-' m (fun c hcm => slugChar_not_white (hc c hcm))]
  rw [collapseRuns_of_noAdjPair hyph '-' (fun c h => hyph_imp_eq h) m hadj]
  exact List.take_of_length_le hlen

theorem slugList_idem (l : List Char) : slugList (slugList l) = slugList l :=
  slugList_fixed (slugList_chars l) (slugList_noAdj l) (slugList_length_le l)

/-- C4: for every non-empty input string, `slugify` outputs only lowercase
ASCII letters, digits, and hyphens (in particular no spaces and no
uppercase), the output has length at most 64, and no two consecutive
characters of the output are both hyphens. -/
theorem slugify_charclass_length_nodouble (s : String) (_h : s ≠ "") :
    (∀ c ∈ (slugify s).data, slugChar c = true) ∧ (slugify s).length ≤ 64 ∧
      noAdjPair hyph (slugify s).data = true := by
  refine ⟨slugList_chars s.data, ?_, slugList_noAdj s.data⟩
  exact slugList_length_le s.data

/-- Witness for C4 at the concrete title "RL Frequency Response!". -/
theorem slugify_charclass_length_nodouble_witness :
    ("RL Frequency Response!" : String) ≠ "" ∧
      ((∀ c ∈ (slugify "RL Frequency Response!").data, slugChar c = true) ∧
        (slugify "RL Frequency Response!").length ≤ 64 ∧
        noAdjPair hyph (slugify "RL Frequency Response!").data = true) :=
  ⟨by decide, slugify_charclass_length_nodouble "RL Frequency Response!" (by decide)⟩

/-- C5: `slugify` is idempotent — applying it to its own output returns
that output unchanged, including through the 64-character truncation. -/
theorem slugify_idempotent (s : String) : slugify (slugify s) = slugify s :=
  congrArg String.mk (slugList_idem s.data)

/-- C2: two runs of `writeLectureCanvas` with the same settings, course,
title and date but arbitrary clock values and uuid draws produce exactly
the same folder and file paths, the same slides and metadata contents,
and drawing / canvas documents that agree on every field except the
generated `id`s and the `seed` / `versionNonce` / `updated` fields. -/
theorem writeLectureCanvas_deterministic (settings : LectureCanvasSettings)
    (title course dateISO : String) (now1 now2 : Nat) (ids1 ids2 : Nat → String) :
    (writeLectureCanvas settings title course dateISO now1 ids1).folder =
      (writeLectureCanvas settings title course dateISO now2 ids2).folder ∧
    (writeLectureCanvas settings title course dateISO now1 ids1).excalidrawPath =
      (writeLectureCanvas settings title course dateISO now2 ids2).excalidrawPath ∧
    (writeLectureCanvas settings title course dateISO now1 ids1).slidesPlaceholderPath =
      (writeLectureCanvas settings title course dateISO now2 ids2).slidesPlaceholderPath ∧
    (writeLectureCanvas settings title course dateISO now1 ids1).metaPath =
      (writeLectureCanvas settings title course dateISO now2 ids2).metaPath ∧
    (writeLectureCanvas settings title course dateISO now1 ids1).canvasPath =
      (writeLectureCanvas settings title course dateISO now2 ids2).canvasPath ∧
    (writeLectureCanvas settings title course dateISO now1 ids1).slidesContent =
      (writeLectureCanvas settings title course dateISO now2 ids2).slidesContent ∧
    (writeLectureCanvas settings title course dateISO now1 ids1).metaContent =
      (writeLectureCanvas settings title course dateISO now2 ids2).metaContent ∧
    maskExcalidrawDoc (writeLectureCanvas settings title course dateISO now1 ids1).excalidrawDoc =
      maskExcalidrawDoc (writeLectureCanvas settings title course dateISO now2 ids2).excalidrawDoc ∧
    maskCanvasDoc (writeLectureCanvas settings title course dateISO now1 ids1).canvasDoc =
      maskCanvasDoc (writeLectureCanvas settings title course dateISO now2 ids2).canvasDoc :=
  ⟨rfl, rfl, rfl, rfl, rfl, rfl, rfl, rfl, rfl⟩

/-- C3: the generated canvas document always has exactly 3 nodes and an
empty edge array, and the `{x,y,width,height}` of the nodes are exactly
the three layout rectangles of the settings (in the `main.ts` variant the
order is meta, excalidraw, slides; in the `part_000` variant it is
excalidraw, slides, meta). -/
theorem canvasDoc_shape (settings : LectureCanvasSettings)
    (title course dateISO : String) (now : Nat) (ids : Nat → String)
    (excalidrawPath slidesPath metaPath : String) :
    (writeLectureCanvas settings title course dateISO now ids).canvasDoc.nodes.length = 3 ∧
    (writeLectureCanvas settings title course dateISO now ids).canvasDoc.edges = [] ∧
    (writeLectureCanvas settings title course dateISO now ids).canvasDoc.nodes.map
        CanvasNode.rect =
      [settings.node.meta, settings.node.excalidraw, settings.node.slides] ∧
    (canvasDocV0 settings title course dateISO excalidrawPath slidesPath metaPath
        ids).nodes.length = 3 ∧
    (canvasDocV0 settings title course dateISO excalidrawPath slidesPath metaPath
        ids).edges = [] ∧
    (canvasDocV0 settings title course dateISO excalidrawPath slidesPath metaPath
        ids).nodes.map CanvasNode.rect =
      [settings.node.excalidraw, settings.node.slides, settings.node.meta] :=
  ⟨rfl, rfl, rfl, rfl, rfl, rfl⟩

/-- C6: for course "ECE2711", title "RL Frequency Response", date
"2024-03-05" under the default settings (root folder "Lectures"), the
computed lecture folder path is exactly
"Lectures/ECE2711/2024-03-05 rl-frequency-response". -/
theorem folder_path_example (now : Nat) (ids : Nat → String) :
    (writeLectureCanvas DEFAULT_SETTINGS "RL Frequency Response" "ECE2711" "2024-03-05"
        now ids).folder =
      "Lectures/ECE2711/2024-03-05 rl-frequency-response" := rfl

/-- C7: for every title and subtitle (and clock value), the generated
drawing document has `type = "excalidraw"` and `version = 2`, and — the
three `uuid()` draws being distinct — the three elements carry pairwise
distinct `id`s.  This holds for both the JSON and the Markdown payload
builders. -/
theorem excalidrawPayload_type_version_unique_ids (ids : Nat → String) (now : Nat)
    (title subtitle : String) (h01 : ids 0 ≠ ids 1) (h02 : ids 0 ≠ ids 2)
    (h12 : ids 1 ≠ ids 2) :
    (createExcalidrawJSONPayload ids now title subtitle).type = "excalidraw" ∧
    (createExcalidrawJSONPayload ids now title subtitle).version = 2 ∧
    ((createExcalidrawJSONPayload ids now title subtitle).elements.map ExElement.id).Nodup ∧
    (createExcalidrawMarkdownPayload ids now title subtitle).type = "excalidraw" ∧
    (createExcalidrawMarkdownPayload ids now title subtitle).version = 2 ∧
    ((createExcalidrawMarkdownPayload ids now title subtitle).elements.map
        ExElement.id).Nodup := by
  refine ⟨rfl, rfl, ?_, rfl, rfl, ?_⟩ <;>
    simp [createExcalidrawJSONPayload, createExcalidrawMarkdownPayload, h01, h02, h12]

/-- Witness for C7 at a concrete draw stream, clock value, title and
subtitle. -/
theorem excalidrawPayload_type_version_unique_ids_witness :
    (sampleIds 0 ≠ sampleIds 1 ∧ sampleIds 0 ≠ sampleIds 2 ∧ sampleIds 1 ≠ sampleIds 2) ∧
    ((createExcalidrawJSONPayload sampleIds 7 "T" "S").type = "excalidraw" ∧
      (createExcalidrawJSONPayload sampleIds 7 "T" "S").version = 2 ∧
      ((createExcalidrawJSONPayload sampleIds 7 "T" "S").elements.map ExElement.id).Nodup ∧
      (createExcalidrawMarkdownPayload sampleIds 7 "T" "S").type = "excalidraw" ∧
      (createExcalidrawMarkdownPayload sampleIds 7 "T" "S").version = 2 ∧
      ((createExcalidrawMarkdownPayload sampleIds 7 "T" "S").elements.map
          ExElement.id).Nodup) :=
  ⟨⟨by decide, by decide, by decide⟩,
    excalidrawPayload_type_version_unique_ids sampleIds 7 "T" "S"
      (by decide) (by decide) (by decide)⟩

theorem dropWhile_all (p : Char → Bool) :
    ∀ l : List Char, (∀ c ∈ l, p c = true) → l.dropWhile p = [] := by
  intro l
  induction l with
  | nil => intro _; rfl
  | cons c cs ih =>
    intro h
    rw [List.dropWhile_cons]
    simp [h c (List.mem_cons_self c cs), ih (fun x hx => h x (List.mem_cons_of_mem c hx))]

theorem jsTrim_all_white (l : List Char) (h : ∀ c ∈ l, jsWhite c = true) :
    jsTrim l = [] := by
  unfold jsTrim
  rw [dropWhile_all jsWhite l h]
  rfl

/-- C1: with an empty course or an empty title, the Create click handler
rejects (it does not call `onSubmit`), and the attempt performs no vault
operations at all — no folder and no file is written. -/
theorem empty_course_or_title_rejected (settings : LectureCanvasSettings)
    (course title dateISO : String) (now : Nat) (ids : Nat → String)
    (h : course = "" ∨ title = "") :
    (submitClick course title dateISO).isSubmitted = false ∧
    promptFlowOps settings course title dateISO now ids = [] := by
  by_cases ht : title = ""
  · constructor
    · simp [submitClick, ht, SubmitResult.isSubmitted]
    · simp [promptFlowOps, submitClick, ht]
  · have hc : course = "" := by
      rcases h with h | h
      · exact h
      · exact absurd h ht
    constructor
    · simp [submitClick, ht, hc, SubmitResult.isSubmitted]
    · simp [promptFlowOps, submitClick, ht, hc]

/-- Witness for C1: an empty course with a non-empty title. -/
theorem empty_course_or_title_rejected_witness :
    (("" : String) = "" ∨ ("Lecture 1" : String) = "") ∧
    ((submitClick "" "Lecture 1" "2024-03-05").isSubmitted = false ∧
      promptFlowOps DEFAULT_SETTINGS "" "Lecture 1" "2024-03-05" 0 sampleIds = []) :=
  ⟨by decide,
    empty_course_or_title_rejected DEFAULT_SETTINGS "" "Lecture 1" "2024-03-05" 0 sampleIds
      (by decide)⟩

/-- C9: the course and title onChange handlers store the trimmed input,
so whitespace-only entries are stored as the empty string; submission
then fails exactly as with an empty field, performing no vault
operations; the date onChange handler stores its input verbatim. -/
theorem whitespace_only_course_title_rejected (settings : LectureCanvasSettings)
    (course title dateISO : String) (now : Nat) (ids : Nat → String)
    (hc : ∀ c ∈ course.data, jsWhite c = true)
    (ht : ∀ c ∈ title.data, jsWhite c = true) :
    courseOnChange course = "" ∧ titleOnChange title = "" ∧
    dateOnChange dateISO = dateISO ∧
    (submitClick (courseOnChange course) (titleOnChange title)
        (dateOnChange dateISO)).isSubmitted = false ∧
    promptFlowOps settings (courseOnChange course) (titleOnChange title)
        (dateOnChange dateISO) now ids = [] := by
  have hc0 : courseOnChange course = "" :=
    congrArg String.mk (jsTrim_all_white course.data hc)
  have ht0 : titleOnChange title = "" :=
    congrArg String.mk (jsTrim_all_white title.data ht)
  refine ⟨hc0, ht0, rfl, ?_, ?_⟩
  · rw [hc0, ht0]
    simp [submitClick, SubmitResult.isSubmitted]
  · rw [hc0, ht0]
    simp [promptFlowOps, submitClick]

/-- Witness for C9: a space-only course, a tab-and-space title, and a
date with surrounding spaces. -/
theorem whitespace_only_course_title_rejected_witness :
    ((∀ c ∈ ("   " : String).data, jsWhite c = true) ∧
      (∀ c ∈ ("\t " : String).data, jsWhite c = true)) ∧
    (courseOnChange "   " = "" ∧ titleOnChange "\t " = "" ∧
      dateOnChange " 2024-03-05 " = " 2024-03-05 " ∧
      (submitClick (courseOnChange "   ") (titleOnChange "\t ")
          (dateOnChange " 2024-03-05 ")).isSubmitted = false ∧
      promptFlowOps DEFAULT_SETTINGS (courseOnChange "   ") (titleOnChange "\t ")
          (dateOnChange " 2024-03-05 ") 0 sampleIds = []) :=
  ⟨⟨by decide, by decide⟩,
    whitespace_only_course_title_rejected DEFAULT_SETTINGS "   " "\t " " 2024-03-05 " 0
      sampleIds (by decide) (by decide)⟩

/-- C8: if the k-th operation of the write sequence raises a file-store
error, the error reaches the top-level catch and surfaces as the single
generic notice, and the operations performed are exactly the k writes
already executed, in order — nothing is rolled back, deleted, or written
afterwards. -/
theorem write_failure_single_notice_no_cleanup (settings : LectureCanvasSettings)
    (title course dateISO : String) (now : Nat) (ids : Nat → String) (k : Nat)
    (hk : k < (lectureOps settings title course dateISO now ids).length) :
    launchPromptRun (lectureOps settings title course dateISO now ids) (some k) =
      FlowResult.failed ((lectureOps settings title course dateISO now ids).take k)
        "Failed to create lecture canvas." := by
  simp [launchPromptRun, runWrites, hk]

/-- Witness for C8: the failure strikes at index 2 (the slides
placeholder write), after the folder and the drawing file. -/
theorem write_failure_single_notice_no_cleanup_witness :
    2 < (lectureOps DEFAULT_SETTINGS "T" "C" "2024-03-05" 0 sampleIds).length ∧
    launchPromptRun (lectureOps DEFAULT_SETTINGS "T" "C" "2024-03-05" 0 sampleIds) (some 2) =
      FlowResult.failed
        ((lectureOps DEFAULT_SETTINGS "T" "C" "2024-03-05" 0 sampleIds).take 2)
        "Failed to create lecture canvas." :=
  ⟨by decide,
    write_failure_single_notice_no_cleanup DEFAULT_SETTINGS "T" "C" "2024-03-05" 0 sampleIds 2
      (by decide)⟩

theorem overwriteFile_keys (p c : String) :
    ∀ files : List (String × String),
      (overwriteFile files p c).map Prod.fst = files.map Prod.fst := by
  intro files
  induction files with
  | nil => rfl
  | cons e es ih =>
    simp only [overwriteFile, List.map_cons] at ih ⊢
    by_cases he : e.1 = p
    · simp [he, ih]
    · simp [he, ih]

theorem lookupFile_overwrite (p c : String) :
    ∀ files : List (String × String), (files.map Prod.fst).contains p = true →
      lookupFile (overwriteFile files p c) p = some c := by
  intro files
  induction files with
  | nil => intro h; simp at h
  | cons e es ih =>
    intro h
    by_cases he : e.1 = p
    · simp [overwriteFile, lookupFile, he]
    · have h' : (es.map Prod.fst).contains p = true := by
        simp only [List.map_cons, List.contains_cons, Bool.or_eq_true] at h
        rcases h with h | h
        · exact absurd (beq_iff_eq.mp h).symm he
        · exact h
      simp only [overwriteFile, List.map_cons] at ih ⊢
      simp [lookupFile, he, ih h']

/-- C10: re-running against already-existing artifacts does not fail:
when the folder already exists, `ensureFolder` leaves the vault
unchanged (no mkdir); when a file already exists at the target path, the
create-or-modify logic of `createExcalidrawJSON` /
`createExcalidrawMarkdown` succeeds, returns the existing handle (no
duplicate, no error), keeps the set of file paths unchanged, and
overwrites that file's content. -/
theorem rerun_reuses_existing_artifacts (v : Vault) (folderPath filePath content : String)
    (hf : v.folders.contains folderPath = true)
    (hx : isFileAt v filePath = true) :
    ensureFolder v folderPath = v ∧
    createOrModifyFile v filePath content =
      Except.ok ({ v with files := overwriteFile v.files filePath content },
        FileHandle.existing filePath) ∧
    (overwriteFile v.files filePath content).map Prod.fst = v.files.map Prod.fst ∧
    lookupFile (overwriteFile v.files filePath content) filePath = some content := by
  have hx' : (v.files.map Prod.fst).contains filePath = true := hx
  have he : vaultExists v folderPath = true := by
    simp only [vaultExists, Bool.or_eq_true]
    exact Or.inl hf
  refine ⟨?_, ?_, overwriteFile_keys filePath content v.files,
    lookupFile_overwrite filePath content v.files hx'⟩
  · simp [ensureFolder, he]
  · simp [createOrModifyFile, hx]

/-- Witness for C10: a vault that already holds the lecture folder and
the drawing file. -/
theorem rerun_reuses_existing_artifacts_witness :
    ((Vault.mk ["Lectures/C/2024-03-05 t"]
        [("Lectures/C/2024-03-05 t/notes.excalidraw", "old")]).folders.contains
        "Lectures/C/2024-03-05 t" = true ∧
      isFileAt (Vault.mk ["Lectures/C/2024-03-05 t"]
        [("Lectures/C/2024-03-05 t/notes.excalidraw", "old")])
        "Lectures/C/2024-03-05 t/notes.excalidraw" = true) ∧
    (ensureFolder (Vault.mk ["Lectures/C/2024-03-05 t"]
        [("Lectures/C/2024-03-05 t/notes.excalidraw", "old")])
        "Lectures/C/2024-03-05 t" =
      Vault.mk ["Lectures/C/2024-03-05 t"]
        [("Lectures/C/2024-03-05 t/notes.excalidraw", "old")] ∧
    createOrModifyFile (Vault.mk ["Lectures/C/2024-03-05 t"]
        [("Lectures/C/2024-03-05 t/notes.excalidraw", "old")])
        "Lectures/C/2024-03-05 t/notes.excalidraw" "new" =
      Except.ok ({ Vault.mk ["Lectures/C/2024-03-05 t"]
          [("Lectures/C/2024-03-05 t/notes.excalidraw", "old")] with
        files := overwriteFile
          [("Lectures/C/2024-03-05 t/notes.excalidraw", "old")]
          "Lectures/C/2024-03-05 t/notes.excalidraw" "new" },
        FileHandle.existing "Lectures/C/2024-03-05 t/notes.excalidraw") ∧
    (overwriteFile [("Lectures/C/2024-03-05 t/notes.excalidraw", "old")]
        "Lectures/C/2024-03-05 t/notes.excalidraw" "new").map Prod.fst =
      [("Lectures/C/2024-03-05 t/notes.excalidraw", "old")].map Prod.fst ∧
    lookupFile (overwriteFile [("Lectures/C/2024-03-05 t/notes.excalidraw", "old")]
        "Lectures/C/2024-03-05 t/notes.excalidraw" "new")
        "Lectures/C/2024-03-05 t/notes.excalidraw" = some "new") :=
  ⟨⟨by decide, by decide⟩,
    rerun_reuses_existing_artifacts
      (Vault.mk ["Lectures/C/2024-03-05 t"]
        [("Lectures/C/2024-03-05 t/notes.excalidraw", "old")])
      "Lectures/C/2024-03-05 t" "Lectures/C/2024-03-05 t/notes.excalidraw" "new"
      (by decide) (by decide)⟩

end LectureCanvas
